import Mathlib

/-!
Verification of the EC2 provisioning scripts (`create_ec2.py`, `list_ec2.py`).

The scripts are linear sequences of AWS API calls.  We embed them shallowly:
the remote account and the local machine are an explicit state (`Account`,
`World`), each boto3 call is a function on that state returning
`Except ClientError _` (the only exception kind the scripts catch), and each
Python function becomes a pure Lean function translated line by line from the
source.  Error-path behaviour is exercised through injectable faults
(`Faults`), mirroring the fact that any API call may raise `ClientError`.
-/

/-- A `botocore.exceptions.ClientError`; `str(e)` is the `msg` field.  The
scripts classify errors only by substring search on that string. -/
structure ClientError where
  msg : String
deriving DecidableEq, Repr

/-- Test `listStartsWith pat l` : `pat` is an initial segment of `l`. -/
def listStartsWith : List Char → List Char → Bool
  | [], _ => true
  | _ :: _, [] => false
  | p :: ps, c :: cs => p == c && listStartsWith ps cs

/-- Test `listOccurs pat l` : `pat` occurs contiguously somewhere in `l`. -/
def listOccurs (pat : List Char) : List Char → Bool
  | [] => pat.isEmpty
  | c :: cs => listStartsWith pat (c :: cs) || listOccurs pat cs

/-- The Python substring test `pat in s` on strings. -/
def strContainsSub (s pat : String) : Bool :=
  listOccurs pat.toList s.toList

/-- Truthiness of an optional string, as Python evaluates it in
`if not sg_id:` and `if instance.public_ip_address:` — `None` and the empty
string are falsy. -/
def pyTruthy : Option String → Bool
  | none => false
  | some s => !(s == "")

/-- One entry of the `InstanceTypes` list of a `describe_instance_types`
response; the script reads only the `InstanceType` field. -/
structure InstanceTypeInfo where
  instanceType : String
deriving DecidableEq, Repr

/-- The `MaxResults=5` argument passed to `describe_instance_types` in
`get_free_tier_instance_type`. -/
def maxResults : Nat := 5

/-- One ip range of an ingress rule (a dict with a `CidrIp` key). -/
structure IpRange where
  cidrIp : String
deriving DecidableEq, Repr

/-- One element of `IpPermissions` as passed to
`authorize_security_group_ingress`. -/
structure IpPermission where
  ipProtocol : String
  fromPort : Nat
  toPort : Nat
  ipRanges : List IpRange
deriving DecidableEq, Repr

/-- A security group as held by the provider: name, assigned identifier,
description and the ingress rules authorized so far. -/
structure SGroup where
  groupName : String
  groupId : String
  description : String
  ingressRules : List IpPermission
deriving DecidableEq, Repr, Inhabited

/-- The provider-side account state for security groups: the groups that
exist and a counter from which fresh group identifiers are assigned. -/
structure Account where
  groups : List SGroup
  nextId : Nat
deriving DecidableEq, Repr

/-- Injectable `ClientError` outcomes for the three security-group API calls
made by `create_security_group`; `none` means the call succeeds. -/
structure Faults where
  lookupFault : Option ClientError
  createFault : Option ClientError
  authFault : Option ClientError
deriving DecidableEq, Repr

/-- All three calls succeed. -/
def noFaults : Faults := ⟨none, none, none⟩

/-- The hardcoded group name in `create_security_group`. -/
def sgGroupName : String := "python-sg-for-ssh"

/-- The hardcoded group description in `create_security_group`. -/
def sgDescription : String := "Security group for EC2 instance created via Python"

/-- The single ingress rule added by `create_security_group`: TCP port 22
open to `0.0.0.0/0`. -/
def sshPermission : IpPermission :=
  { ipProtocol := "tcp", fromPort := 22, toPort := 22, ipRanges := [⟨"0.0.0.0/0"⟩] }

/-- The groups of `acct` whose name is `name`. -/
def groupsNamed (acct : Account) (name : String) : List SGroup :=
  acct.groups.filter (fun g => g.groupName == name)

/-- The identifier `create_security_group` would receive for a newly created
group. -/
def freshGroupId (acct : Account) : String :=
  "sg-" ++ toString acct.nextId

/-- The error raised by `describe_security_groups(GroupNames=[...])` when no
group of that name exists; the script tests `str(e)` for the substring
`InvalidGroup.NotFound`. -/
def notFoundGroupError (name : String) : ClientError :=
  ⟨"An error occurred (InvalidGroup.NotFound) when calling the DescribeSecurityGroups operation: The security group \x27" ++ name ++ "\x27 does not exist"⟩

/-- The call `ec2_client.describe_security_groups(GroupNames=[name])`: returns the
matching groups, or raises `InvalidGroup.NotFound` when there are none
(or the injected fault, if any). -/
def describe_security_groups (f : Faults) (acct : Account) (name : String) :
    Except ClientError (List SGroup) :=
  match f.lookupFault with
  | some e => .error e
  | none =>
    match groupsNamed acct name with
    | [] => .error (notFoundGroupError name)
    | gs => .ok gs

/-- The call `ec2_client.create_security_group(GroupName=name, Description=desc)`:
adds a group with a fresh identifier and no rules, returning the updated
account and the `GroupId` of the response. -/
def create_security_group_api (f : Faults) (acct : Account) (name desc : String) :
    Except ClientError (Account × String) :=
  match f.createFault with
  | some e => .error e
  | none =>
    let gid := freshGroupId acct
    .ok ({ groups := acct.groups ++ [⟨name, gid, desc, []⟩], nextId := acct.nextId + 1 }, gid)

/-- The call `ec2_client.authorize_security_group_ingress(GroupId=gid, IpPermissions=perms)`:
appends the permissions to the rules of the group with identifier `gid`. -/
def authorize_security_group_ingress (f : Faults) (acct : Account) (gid : String)
    (perms : List IpPermission) : Except ClientError Account :=
  match f.authFault with
  | some e => .error e
  | none =>
    .ok { acct with
          groups := acct.groups.map (fun g =>
            if g.groupId == gid then { g with ingressRules := g.ingressRules ++ perms } else g) }

/-- Embedding of `create_security_group` from `create_ec2.py`: look the fixed group name
up; on success return the identifier of the first match; on
`InvalidGroup.NotFound` create the group, authorize the single SSH rule and
return the new identifier; on any other error (or an error during
create/authorize) return `None`.  The returned account reflects the API
calls actually made. -/
def create_security_group (f : Faults) (acct : Account) : Account × Option String :=
  match describe_security_groups f acct sgGroupName with
  | .ok gs => (acct, some (gs.head!).groupId)
  | .error e =>
    if strContainsSub e.msg "InvalidGroup.NotFound" then
      match create_security_group_api f acct sgGroupName sgDescription with
      | .error _ => (acct, none)
      | .ok (acct2, security_group_id) =>
        match authorize_security_group_ingress f acct2 security_group_id [sshPermission] with
        | .error _ => (acct2, none)
        | .ok acct3 => (acct3, some security_group_id)
    else
      (acct, none)

/-- The state the provisioning script runs against: the remote account
(key pairs by name, security groups, free-tier-eligible instance types, the
outcome of the launch request and the address the instance ends up with once
running) and the local machine (presence of the `.pem` file, and the
files of the working directory). -/
structure World where
  keyFault : Option ClientError
  keyPairs : List String
  pemExists : Bool
  typesFault : Option ClientError
  eligibleTypes : List InstanceTypeInfo
  sgFaults : Faults
  account : Account
  launchResult : Except ClientError String
  publicIp : Option String
  files : List (String × String)

/-- The error raised by `describe_key_pairs(KeyNames=[name])` when the key
pair does not exist; the script tests `str(e)` for `InvalidKeyPair.NotFound`. -/
def notFoundKeyError (name : String) : ClientError :=
  ⟨"An error occurred (InvalidKeyPair.NotFound) when calling the DescribeKeyPairs operation: The key pair \x27" ++ name ++ "\x27 does not exist"⟩

/-- The call `ec2_client.describe_key_pairs(KeyNames=[name])`: succeeds when the key
pair exists, raises `InvalidKeyPair.NotFound` otherwise (or the injected
fault, if any). -/
def describe_key_pairs (w : World) (name : String) : Except ClientError Unit :=
  match w.keyFault with
  | some e => .error e
  | none =>
    if w.keyPairs.contains name then .ok () else .error (notFoundKeyError name)

/-- Embedding of `check_key_pair` from `create_ec2.py`: returns `True` when the remote
lookup succeeds (printing whether the local `.pem` file is present), `False`
on any `ClientError` (with a dedicated message for `InvalidKeyPair.NotFound`).
The second component is the list of printed lines. -/
def check_key_pair (w : World) (keyName : String) : Bool × List String :=
  match describe_key_pairs w keyName with
  | .ok _ =>
    let found := "Key pair \x27" ++ keyName ++ "\x27 found in AWS."
    if w.pemExists then
      (true, [found, "Private key file \x27" ++ keyName ++ ".pem\x27 found locally."])
    else
      (true,
       [found,
        "⚠ Warning: Private key file \x27" ++ keyName ++ ".pem\x27 not found in current directory.",
        "  You will need this file to connect to your instance via SSH."])
  | .error e =>
    if strContainsSub e.msg "InvalidKeyPair.NotFound" then
      (false,
       ["❌ ERROR: Key pair \x27" ++ keyName ++ "\x27 does not exist in AWS!",
        "\nPlease create it first with:",
        "aws ec2 create-key-pair --key-name " ++ keyName ++ " --query \x27KeyMaterial\x27 --output text > " ++ keyName ++ ".pem",
        "\nThis will create " ++ keyName ++ ".pem in your current directory"])
    else
      (false, ["Error checking key pair: " ++ e.msg])

/-- The body of `get_free_tier_instance_type` applied to the outcome of the
`describe_instance_types` call: the `InstanceType` of the first entry when the list
is non-empty, the literal `t3.micro` on an empty list or a `ClientError`. -/
def select_instance_type (resp : Except ClientError (List InstanceTypeInfo)) : String :=
  match resp with
  | .ok response =>
    match response with
    | [] => "t3.micro"
    | t :: _ => t.instanceType
  | .error _ => "t3.micro"

/-- The call `ec2_client.describe_instance_types` with the free-tier filter and `MaxResults=5`:
returns at most `maxResults` of the eligible types of the account, in provider
order (or the injected fault, if any). -/
def describe_instance_types (w : World) : Except ClientError (List InstanceTypeInfo) :=
  match w.typesFault with
  | some e => .error e
  | none => .ok (w.eligibleTypes.take maxResults)

/-- Embedding of `get_free_tier_instance_type` from `create_ec2.py`. -/
def get_free_tier_instance_type (w : World) : String :=
  select_instance_type (describe_instance_types w)

/-- The Python string repetition of the equals sign, n times. -/
def eqBar (n : Nat) : String :=
  String.mk (List.replicate n '=')

/-- Embedding of `print_windows_connection_instructions` from `create_ec2.py`, as the list
of printed lines; it returns immediately (printing nothing) when the address
is falsy. -/
def print_windows_connection_instructions (keyName : String) (publicIp : Option String) :
    List String :=
  if !(pyTruthy publicIp) then []
  else
    let ip := publicIp.getD ""
    ["\n" ++ eqBar 60,
     "WINDOWS CONNECTION INSTRUCTIONS",
     eqBar 60,
     "\nPublic IP: " ++ ip,
     "Username: ec2-user",
     "Key file: " ++ keyName ++ ".pem",
     "\nOption 1: Using MobaXterm (Recommended for Windows)",
     "  1. Download MobaXterm: https://mobaxterm.mobatek.net/",
     "  2. Session -> SSH -> Enter the IP above",
     "  3. Specify username: ec2-user",
     "  4. Advanced SSH settings -> Use private key: " ++ keyName ++ ".pem",
     "\nOption 2: Using PuTTY",
     "  1. Convert .pem to .ppk using PuTTYgen",
     "  2. Use PuTTY with the .ppk file",
     "  3. Host: ec2-user@" ++ ip,
     "\nOption 3: Using AWS Session Manager (No SSH client needed)",
     "  1. aws ssm start-session --target your-instance-id"]

/-- Opening a file in write mode followed by writes: the previous content, if
any, is replaced. -/
def writeFile (files : List (String × String)) (name content : String) :
    List (String × String) :=
  (name, content) :: files.filter (fun p => !(p.1 == name))

/-- The content of file `name`, if present. -/
def fileGet (files : List (String × String)) (name : String) : Option String :=
  (files.find? (fun p => p.1 == name)).map (fun p => p.2)

/-- The hardcoded key pair name in `main`. -/
def key_name : String := "my-python-key"

/-- The hardcoded AMI in `main` (Amazon Linux 2, us-east-1). -/
def ami_id : String := "ami-0c02fb55956c7d316"

/-- What a run of `main` did: which provisioning steps were reached, the
lines printed by `print_windows_connection_instructions` (empty when it was
not called), whether the report file was written, and the failure messages
`main` printed before returning early. -/
structure Trace where
  typeLookupDone : Bool
  groupProvisionDone : Bool
  launchAttempted : Bool
  connectionLines : List String
  fileWritten : Bool
  failureMsgs : List String

namespace CreateEc2

/-- Embedding of `main` from `create_ec2.py`: key-pair check, type lookup, security-group
provisioning, launch, wait for running (modelled by `launchResult` /
`publicIp`), then connection instructions and the report file when a public
address was assigned.  Returns the final world and the trace of the run. -/
def main (w : World) : World × Trace :=
  if !(check_key_pair w key_name).1 then
    (w, { typeLookupDone := false, groupProvisionDone := false, launchAttempted := false,
          connectionLines := [], fileWritten := false,
          failureMsgs := ["Failed due to missing key pair. Exiting."] })
  else
    let _instance_type := get_free_tier_instance_type w
    let sgRun := create_security_group w.sgFaults w.account
    let w2 : World := { w with account := sgRun.1 }
    if !(pyTruthy sgRun.2) then
      (w2, { typeLookupDone := true, groupProvisionDone := true, launchAttempted := false,
             connectionLines := [], fileWritten := false,
             failureMsgs := ["Failed to get a security group. Exiting."] })
    else
      match w.launchResult with
      | .error e =>
        (w2, { typeLookupDone := true, groupProvisionDone := true, launchAttempted := true,
               connectionLines := [], fileWritten := false,
               failureMsgs := ["Failed to launch instance: " ++ e.msg] })
      | .ok instanceId =>
        if pyTruthy w.publicIp then
          let ip := (w.publicIp).getD ""
          let lines := print_windows_connection_instructions key_name w.publicIp
          let content :=
            "Instance ID: " ++ instanceId ++ "\n" ++
            "Public IP: " ++ ip ++ "\n" ++
            "Key Pair: " ++ key_name ++ ".pem\n" ++
            "Connect: ec2-user@" ++ ip ++ "\n"
          let w3 : World := { w2 with files := writeFile w2.files "instance_connection.txt" content }
          (w3, { typeLookupDone := true, groupProvisionDone := true, launchAttempted := true,
                 connectionLines := lines, fileWritten := true, failureMsgs := [] })
        else
          (w2, { typeLookupDone := true, groupProvisionDone := true, launchAttempted := true,
                 connectionLines := [], fileWritten := false, failureMsgs := [] })

end CreateEc2

/-- One instance of a `describe_instances` response; `list_ec2.py` reads the
identifier, the state name and the type. -/
structure Ec2Instance where
  instanceId : String
  stateName : String
  instanceType : String
deriving DecidableEq, Repr

/-- One reservation of a `describe_instances` response. -/
structure Reservation where
  instances : List Ec2Instance
deriving DecidableEq, Repr

/-- The line `list_ec2.py` prints for one instance. -/
def instanceLine (i : Ec2Instance) : String :=
  i.instanceId ++ "\t" ++ i.stateName ++ "\t\t" ++ i.instanceType

/-- The module body of `list_ec2.py`: the header lines followed by one line
per instance of each reservation, in response order. -/
def list_ec2_output (reservations : List Reservation) : List String :=
  "Instance ID\t\tState\t\tType" ::
  "----------------------------------------------" ::
  (reservations.map (fun r => r.instances.map instanceLine)).flatten

/-! ## Helper lemmas -/

theorem listStartsWith_append (pat rest : List Char) :
    listStartsWith pat (pat ++ rest) = true := by
  induction pat with
  | nil => simp [listStartsWith]
  | cons p ps ih => simp [listStartsWith, ih]

theorem listOccurs_append (pre pat post : List Char) :
    listOccurs pat (pre ++ pat ++ post) = true := by
  induction pre with
  | nil =>
    cases pat with
    | nil => cases post <;> simp [listOccurs, listStartsWith]
    | cons p ps =>
      simp only [listOccurs, List.nil_append, Bool.or_eq_true]
      exact Or.inl (listStartsWith_append (p :: ps) post)
  | cons c cs ih =>
    simp only [listOccurs, List.cons_append, Bool.or_eq_true]
    exact Or.inr (by simpa [List.append_assoc] using ih)

/-- A substring test succeeds whenever the character list decomposes around
the pattern. -/
theorem strContainsSub_of_eq (s pat : String) (pre post : List Char)
    (h : s.data = pre ++ pat.data ++ post) : strContainsSub s pat = true := by
  unfold strContainsSub
  show listOccurs pat.data s.data = true
  rw [h]
  exact listOccurs_append pre pat.data post

theorem pyTruthy_none : pyTruthy none = false := rfl

theorem pyTruthy_some (s : String) : pyTruthy (some s) = !(s == "") := rfl

/-- The error message raised for a missing security group contains the
substring `create_security_group` branches on. -/
theorem notFoundGroup_msg :
    strContainsSub (notFoundGroupError sgGroupName).msg "InvalidGroup.NotFound" = true := by
  decide

/-! ## C2, C10 — instance-type selection -/

/-- C2: for every capability-query response with a non-empty list of
instance types, the selection of `get_free_tier_instance_type` returns the
identifier of the first entry unchanged; for an empty list, and for a query that fails
with a `ClientError`, it returns the literal fallback `"t3.micro"`. -/
theorem select_instance_type_spec :
    (∀ t ts, select_instance_type (Except.ok (t :: ts)) = t.instanceType) ∧
    select_instance_type (Except.ok []) = "t3.micro" ∧
    (∀ e, select_instance_type (Except.error e) = "t3.micro") :=
  ⟨fun _ _ => rfl, rfl, fun _ => rfl⟩

/-- C10: the capability query is issued with `MaxResults=5`, so whenever the
query succeeds the selected type is the fallback or one of the first five
eligible types the provider reports, no matter how many eligible types
exist. -/
theorem get_free_tier_instance_type_max_results (w : World)
    (hf : w.typesFault = none) :
    maxResults = 5 ∧
    (w.eligibleTypes = [] → get_free_tier_instance_type w = "t3.micro") ∧
    (w.eligibleTypes ≠ [] →
      get_free_tier_instance_type w
        ∈ (w.eligibleTypes.take 5).map (fun t => t.instanceType)) := by
  refine ⟨rfl, ?_, ?_⟩
  · intro h
    simp [get_free_tier_instance_type, describe_instance_types, hf, h, select_instance_type]
  · intro h
    cases hel : w.eligibleTypes with
    | nil => exact absurd hel h
    | cons t ts =>
      simp [get_free_tier_instance_type, describe_instance_types, hf, hel,
            select_instance_type, maxResults]

/-- A world with seven eligible types: the selection is confined to the
first five. -/
def wC10 : World :=
  { keyFault := none, keyPairs := [key_name], pemExists := true,
    typesFault := none,
    eligibleTypes := [⟨"t2.micro"⟩, ⟨"t3.micro"⟩, ⟨"t3a.micro"⟩, ⟨"t1.micro"⟩,
                      ⟨"t2.nano"⟩, ⟨"m1.small"⟩, ⟨"m1.medium"⟩],
    sgFaults := noFaults, account := ⟨[], 0⟩,
    launchResult := .ok "i-0123456789abcdef0",
    publicIp := some "203.0.113.5", files := [] }

theorem get_free_tier_instance_type_max_results_witness :
    wC10.eligibleTypes ≠ [] ∧
    get_free_tier_instance_type wC10
      ∈ (wC10.eligibleTypes.take 5).map (fun t => t.instanceType) :=
  ⟨by decide, (get_free_tier_instance_type_max_results wC10 rfl).2.2 (by decide)⟩

/-! ## C9 — the Lister -/

/-- C9: `list_ec2.py` prints, after the two header lines, exactly one line
per instance of every reservation, in response order, and each line carries
the identifier, state name and type of that instance. -/
theorem list_ec2_output_one_line_per_instance (reservations : List Reservation) :
    (list_ec2_output reservations).drop 2 =
      ((reservations.map Reservation.instances).flatten).map instanceLine ∧
    ((list_ec2_output reservations).drop 2).length =
      (reservations.map (fun r => r.instances.length)).sum ∧
    ∀ i ∈ (reservations.map Reservation.instances).flatten,
      strContainsSub (instanceLine i) i.instanceId = true ∧
      strContainsSub (instanceLine i) i.stateName = true ∧
      strContainsSub (instanceLine i) i.instanceType = true := by
  refine ⟨?_, ?_, ?_⟩
  · show (reservations.map (fun r => r.instances.map instanceLine)).flatten = _
    rw [List.map_flatten, List.map_map]
    rfl
  · simp [list_ec2_output, List.length_flatten, Function.comp_def, List.length_map]
  · intro i _
    have hline : (instanceLine i).data =
        i.instanceId.data ++ "\t".data ++ i.stateName.data ++ "\t\t".data ++
          i.instanceType.data := by
      simp [instanceLine, String.data_append]
    refine ⟨?_, ?_, ?_⟩
    · exact strContainsSub_of_eq _ _ []
        ("\t".data ++ i.stateName.data ++ "\t\t".data ++ i.instanceType.data)
        (by simp [hline])
    · exact strContainsSub_of_eq _ _ (i.instanceId.data ++ "\t".data)
        ("\t\t".data ++ i.instanceType.data) (by simp [hline])
    · exact strContainsSub_of_eq _ _
        (i.instanceId.data ++ "\t".data ++ i.stateName.data ++ "\t\t".data) []
        (by simp [hline])

/-- Concrete instances for evaluating the Lister on a non-trivial response. -/
def demoInstA : Ec2Instance := ⟨"i-0aaa", "running", "t2.micro"⟩

def demoInstB : Ec2Instance := ⟨"i-0bbb", "stopped", "t3.large"⟩

def demoInstC : Ec2Instance := ⟨"i-0ccc", "pending", "m5.xlarge"⟩

def demoReservations : List Reservation := [⟨[demoInstA, demoInstB]⟩, ⟨[]⟩, ⟨[demoInstC]⟩]

theorem list_ec2_output_one_line_per_instance_witness :
    (list_ec2_output demoReservations).drop 2 =
      [instanceLine demoInstA, instanceLine demoInstB, instanceLine demoInstC] ∧
    strContainsSub (instanceLine demoInstB) demoInstB.instanceId = true ∧
    strContainsSub (instanceLine demoInstB) demoInstB.stateName = true ∧
    strContainsSub (instanceLine demoInstB) demoInstB.instanceType = true :=
  ⟨(list_ec2_output_one_line_per_instance demoReservations).1,
   (list_ec2_output_one_line_per_instance demoReservations).2.2 demoInstB (by decide)⟩

/-! ## The provisioning run: shared concrete world -/

/-- A healthy base world: the key pair and its `.pem` file exist, one
eligible type, no security group yet, the launch succeeds and the instance
gets a public address. -/
def baseWorld : World :=
  { keyFault := none, keyPairs := [key_name], pemExists := true,
    typesFault := none, eligibleTypes := [⟨"t2.micro"⟩],
    sgFaults := noFaults, account := ⟨[], 0⟩,
    launchResult := .ok "i-0123456789abcdef0",
    publicIp := some "203.0.113.5", files := [] }

/-! ## C3 — missing key pair halts the run -/

/-- C3: when the key-pair lookup fails with an `InvalidKeyPair.NotFound`
error, `check_key_pair` returns `False` and `main` returns at once: no type
lookup, no group provisioning, no launch, no file write, and the world is
left untouched. -/
theorem check_key_pair_not_found_halts (w : World) (e : ClientError)
    (hkey : describe_key_pairs w key_name = .error e)
    (hnf : strContainsSub e.msg "InvalidKeyPair.NotFound" = true) :
    (check_key_pair w key_name).1 = false ∧
    CreateEc2.main w =
      (w, { typeLookupDone := false, groupProvisionDone := false, launchAttempted := false,
            connectionLines := [], fileWritten := false,
            failureMsgs := ["Failed due to missing key pair. Exiting."] }) := by
  have h1 : (check_key_pair w key_name).1 = false := by
    simp [check_key_pair, hkey, hnf]
  refine ⟨h1, ?_⟩
  unfold CreateEc2.main
  simp [h1]

/-- A world whose account holds no key pair at all. -/
def wC3 : World := { baseWorld with keyPairs := [] }

theorem check_key_pair_not_found_halts_witness :
    (check_key_pair wC3 key_name).1 = false ∧
    CreateEc2.main wC3 =
      (wC3, { typeLookupDone := false, groupProvisionDone := false, launchAttempted := false,
              connectionLines := [], fileWritten := false,
              failureMsgs := ["Failed due to missing key pair. Exiting."] }) :=
  check_key_pair_not_found_halts wC3 (notFoundKeyError key_name) rfl (by decide)

/-! ## C5 — no public address: no report, no instructions -/

/-- C5: when the launch succeeds but the provider assigns no public address,
`main` does not touch the report file, and no connection instructions are
produced (`print_windows_connection_instructions` returns immediately on an
absent address). -/
theorem no_public_ip_no_report (w : World) (instanceId : String)
    (hlaunch : w.launchResult = .ok instanceId)
    (hip : w.publicIp = none) :
    (CreateEc2.main w).1.files = w.files ∧
    (CreateEc2.main w).2.fileWritten = false ∧
    (CreateEc2.main w).2.connectionLines = [] ∧
    print_windows_connection_instructions key_name none = [] := by
  have h : (CreateEc2.main w).1.files = w.files ∧
      (CreateEc2.main w).2.fileWritten = false ∧
      (CreateEc2.main w).2.connectionLines = [] := by
    unfold CreateEc2.main
    cases hc : (check_key_pair w key_name).1
    · simp [hc]
    · cases hsg : pyTruthy (create_security_group w.sgFaults w.account).2
      · simp [hc, hsg]
      · simp [hc, hsg, hlaunch, hip, pyTruthy_none]
  exact ⟨h.1, h.2.1, h.2.2, rfl⟩

/-- A world where the instance never gets a public address. -/
def wC5 : World := { baseWorld with publicIp := none }

theorem no_public_ip_no_report_witness :
    (CreateEc2.main wC5).1.files = wC5.files ∧
    (CreateEc2.main wC5).2.fileWritten = false ∧
    (CreateEc2.main wC5).2.connectionLines = [] ∧
    print_windows_connection_instructions key_name none = [] :=
  no_public_ip_no_report wC5 "i-0123456789abcdef0" rfl rfl

/-! ## C8 — a missing local .pem file only warns -/

/-- Whenever the key-pair check passed, `main` goes on to the type lookup
and the group provisioning, whatever happens afterwards. -/
theorem main_reaches_provisioning (w : World)
    (h : (check_key_pair w key_name).1 = true) :
    (CreateEc2.main w).2.typeLookupDone = true ∧
    (CreateEc2.main w).2.groupProvisionDone = true := by
  unfold CreateEc2.main
  cases hsg : pyTruthy (create_security_group w.sgFaults w.account).2
  · simp [h, hsg]
  · cases hl : w.launchResult with
    | error e => simp [h, hsg, hl]
    | ok instanceId => cases hip : pyTruthy w.publicIp <;> simp [h, hsg, hl, hip]

/-- C8: when the remote key-pair lookup succeeds, `check_key_pair` returns
`True` whether or not the local `.pem` file exists; a missing file yields
only a printed warning, and the run continues into provisioning. -/
theorem check_key_pair_pem_only_warns (w : World) (keyName : String)
    (hok : describe_key_pairs w keyName = .ok ()) :
    (check_key_pair w keyName).1 = true ∧
    (w.pemExists = false →
      (check_key_pair w keyName).2 =
        ["Key pair \x27" ++ keyName ++ "\x27 found in AWS.",
         "⚠ Warning: Private key file \x27" ++ keyName ++ ".pem\x27 not found in current directory.",
         "  You will need this file to connect to your instance via SSH."]) ∧
    (keyName = key_name →
      (CreateEc2.main w).2.typeLookupDone = true ∧
      (CreateEc2.main w).2.groupProvisionDone = true) := by
  have h1 : (check_key_pair w keyName).1 = true := by
    cases hp : w.pemExists <;> simp [check_key_pair, hok, hp]
  refine ⟨h1, ?_, ?_⟩
  · intro hp
    simp [check_key_pair, hok, hp]
  · intro hn
    exact main_reaches_provisioning w (hn ▸ h1)

/-- A world where the key pair exists remotely but the `.pem` file is
missing locally. -/
def wC8 : World := { baseWorld with pemExists := false }

theorem check_key_pair_pem_only_warns_witness :
    (check_key_pair wC8 key_name).1 = true ∧
    (check_key_pair wC8 key_name).2 =
      ["Key pair \x27my-python-key\x27 found in AWS.",
       "⚠ Warning: Private key file \x27my-python-key.pem\x27 not found in current directory.",
       "  You will need this file to connect to your instance via SSH."] ∧
    (CreateEc2.main wC8).2.typeLookupDone = true ∧
    (CreateEc2.main wC8).2.groupProvisionDone = true :=
  ⟨(check_key_pair_pem_only_warns wC8 key_name rfl).1,
   (check_key_pair_pem_only_warns wC8 key_name rfl).2.1 rfl,
   (check_key_pair_pem_only_warns wC8 key_name rfl).2.2 rfl⟩

/-! ## C6 — the report file -/

/-- C6: when the run reaches a running instance with a public address, the
report file `instance_connection.txt` is written with the four fixed-format
lines, replacing whatever the file held before (the prior content of
`w.files` is arbitrary). -/
theorem connection_report_written (w : World) (instanceId ip : String)
    (hkey : (check_key_pair w key_name).1 = true)
    (hsg : pyTruthy (create_security_group w.sgFaults w.account).2 = true)
    (hlaunch : w.launchResult = .ok instanceId)
    (hip : w.publicIp = some ip)
    (hipne : (ip == "") = false) :
    (CreateEc2.main w).1.files =
      writeFile w.files "instance_connection.txt"
        ("Instance ID: " ++ instanceId ++ "\n" ++
         "Public IP: " ++ ip ++ "\n" ++
         "Key Pair: " ++ key_name ++ ".pem\n" ++
         "Connect: ec2-user@" ++ ip ++ "\n") ∧
    fileGet (CreateEc2.main w).1.files "instance_connection.txt" =
      some ("Instance ID: " ++ instanceId ++ "\n" ++
            "Public IP: " ++ ip ++ "\n" ++
            "Key Pair: " ++ key_name ++ ".pem\n" ++
            "Connect: ec2-user@" ++ ip ++ "\n") ∧
    (CreateEc2.main w).2.fileWritten = true := by
  have hm : (CreateEc2.main w).1.files =
      writeFile w.files "instance_connection.txt"
        ("Instance ID: " ++ instanceId ++ "\n" ++
         "Public IP: " ++ ip ++ "\n" ++
         "Key Pair: " ++ key_name ++ ".pem\n" ++
         "Connect: ec2-user@" ++ ip ++ "\n") ∧
      (CreateEc2.main w).2.fileWritten = true := by
    unfold CreateEc2.main
    simp [hkey, hsg, hlaunch, hip, pyTruthy_some, hipne]
  refine ⟨hm.1, ?_, hm.2⟩
  rw [hm.1]
  simp [writeFile, fileGet]

/-- A world that already holds a stale report file, to be overwritten. -/
def wC6 : World := { baseWorld with files := [("instance_connection.txt", "stale content")] }

theorem connection_report_written_witness :
    fileGet (CreateEc2.main wC6).1.files "instance_connection.txt" =
      some "Instance ID: i-0123456789abcdef0\nPublic IP: 203.0.113.5\nKey Pair: my-python-key.pem\nConnect: ec2-user@203.0.113.5\n" ∧
    (CreateEc2.main wC6).2.fileWritten = true :=
  ⟨(connection_report_written wC6 "i-0123456789abcdef0" "203.0.113.5"
      (by decide) (by decide) rfl rfl (by decide)).2.1,
   (connection_report_written wC6 "i-0123456789abcdef0" "203.0.113.5"
      (by decide) (by decide) rfl rfl (by decide)).2.2⟩

/-! ## C7 — any other lookup/creation error yields no identifier -/

/-- C7: when the group lookup fails with an error other than
`InvalidGroup.NotFound`, or the lookup reports "not found" and then either
the creation call or the rule-authorization call fails (both are caught by
the same handler in the source), `create_security_group` returns `None`,
and `main` prints the failure message and returns without attempting a
launch or writing a file.  In the two paths where no creation succeeded —
a non-not-found lookup error, or a failing creation call — the account is
also left untouched. -/
theorem create_security_group_other_error_none (w : World)
    (hkey : (check_key_pair w key_name).1 = true)
    (herr :
      (∃ e, w.sgFaults.lookupFault = some e ∧
            strContainsSub e.msg "InvalidGroup.NotFound" = false) ∨
      (w.sgFaults.lookupFault = none ∧ groupsNamed w.account sgGroupName = [] ∧
       ∃ e, w.sgFaults.createFault = some e) ∨
      (w.sgFaults.lookupFault = none ∧ groupsNamed w.account sgGroupName = [] ∧
       w.sgFaults.createFault = none ∧ ∃ e, w.sgFaults.authFault = some e)) :
    (create_security_group w.sgFaults w.account).2 = none ∧
    (CreateEc2.main w).2.launchAttempted = false ∧
    (CreateEc2.main w).2.fileWritten = false ∧
    (CreateEc2.main w).2.failureMsgs = ["Failed to get a security group. Exiting."] ∧
    ((∃ e, w.sgFaults.lookupFault = some e ∧
          strContainsSub e.msg "InvalidGroup.NotFound" = false) ∨
     (w.sgFaults.lookupFault = none ∧ groupsNamed w.account sgGroupName = [] ∧
      ∃ e, w.sgFaults.createFault = some e) →
      (create_security_group w.sgFaults w.account).1 = w.account) := by
  have hsg2 : (create_security_group w.sgFaults w.account).2 = none := by
    rcases herr with ⟨e, hl, hnf⟩ | ⟨hl, hg, e, hc⟩ | ⟨hl, hg, hcn, e, ha⟩
    · simp [create_security_group, describe_security_groups, hl, hnf]
    · simp [create_security_group, describe_security_groups, create_security_group_api,
            hl, hg, hc, notFoundGroup_msg]
    · simp [create_security_group, describe_security_groups, create_security_group_api,
            authorize_security_group_ingress, hl, hg, hcn, ha, notFoundGroup_msg]
  have hfalse : pyTruthy (create_security_group w.sgFaults w.account).2 = false := by
    rw [hsg2]; rfl
  have hmain : (CreateEc2.main w).2.launchAttempted = false ∧
      (CreateEc2.main w).2.fileWritten = false ∧
      (CreateEc2.main w).2.failureMsgs = ["Failed to get a security group. Exiting."] := by
    unfold CreateEc2.main
    simp [hkey, hfalse]
  refine ⟨hsg2, hmain.1, hmain.2.1, hmain.2.2, ?_⟩
  intro hAB
  have hunch : create_security_group w.sgFaults w.account = (w.account, none) := by
    rcases hAB with ⟨e, hl, hnf⟩ | ⟨hl, hg, e, hc⟩
    · simp [create_security_group, describe_security_groups, hl, hnf]
    · simp [create_security_group, describe_security_groups, create_security_group_api,
            hl, hg, hc, notFoundGroup_msg]
  rw [hunch]

/-- An access-denied error on the group lookup. -/
def errC7 : ClientError :=
  ⟨"An error occurred (UnauthorizedOperation) when calling the DescribeSecurityGroups operation: You are not authorized to perform this operation"⟩

/-- A world where the security-group lookup fails with an error other than
"not found". -/
def wC7 : World := { baseWorld with sgFaults := ⟨some errC7, none, none⟩ }

/-- A limit error on the rule-authorization call. -/
def errC7auth : ClientError :=
  ⟨"An error occurred (RulesPerSecurityGroupLimitExceeded) when calling the AuthorizeSecurityGroupIngress operation: The maximum number of rules per security group has been reached"⟩

/-- A world where the group lookup reports "not found", the creation
succeeds, and the rule authorization then fails. -/
def wC7auth : World := { baseWorld with sgFaults := ⟨none, none, some errC7auth⟩ }

theorem create_security_group_other_error_none_witness :
    (create_security_group wC7.sgFaults wC7.account).2 = none ∧
    (create_security_group wC7.sgFaults wC7.account).1 = wC7.account ∧
    (CreateEc2.main wC7).2.launchAttempted = false ∧
    (CreateEc2.main wC7).2.fileWritten = false ∧
    (CreateEc2.main wC7).2.failureMsgs = ["Failed to get a security group. Exiting."] ∧
    (create_security_group wC7auth.sgFaults wC7auth.account).2 = none ∧
    (CreateEc2.main wC7auth).2.launchAttempted = false ∧
    (CreateEc2.main wC7auth).2.fileWritten = false ∧
    (CreateEc2.main wC7auth).2.failureMsgs = ["Failed to get a security group. Exiting."] :=
  have h1 := create_security_group_other_error_none wC7 (by decide)
    (Or.inl ⟨errC7, rfl, by decide⟩)
  have h2 := create_security_group_other_error_none wC7auth (by decide)
    (Or.inr (Or.inr ⟨rfl, rfl, rfl, errC7auth, rfl⟩))
  ⟨h1.1, h1.2.2.2.2 (Or.inl ⟨errC7, rfl, by decide⟩), h1.2.1, h1.2.2.1, h1.2.2.2.1,
   h2.1, h2.2.1, h2.2.2.1, h2.2.2.2.1⟩

/-! ## C1, C4 — security-group provisioning -/

/-- The rule-adding update `authorize_security_group_ingress` applies to
each group of the account. -/
def addRule (gid : String) (perms : List IpPermission) (g : SGroup) : SGroup :=
  if g.groupId == gid then { g with ingressRules := g.ingressRules ++ perms } else g

/-- Under no fault, `authorize_security_group_ingress` is the `addRule` map. -/
theorem authorize_eq_addRule (acct : Account) (gid : String) (perms : List IpPermission) :
    authorize_security_group_ingress noFaults acct gid perms =
      .ok { acct with groups := acct.groups.map (addRule gid perms) } := rfl

/-- Reuse path: when the lookup finds groups, `create_security_group`
returns the identifier of the first one and makes no further API call. -/
theorem create_security_group_reuses (acct : Account) (g : SGroup) (gs : List SGroup)
    (hg : groupsNamed acct sgGroupName = g :: gs) :
    create_security_group noFaults acct = (acct, some g.groupId) := by
  unfold create_security_group describe_security_groups
  simp [noFaults, hg]

/-- The group row created for the fixed name, before the rule is added. -/
def newGroupRow (acct : Account) : SGroup :=
  { groupName := sgGroupName, groupId := freshGroupId acct,
    description := sgDescription, ingressRules := [] }

/-- Creation path under `noFaults`: when no group of the fixed name exists,
the group is created and the SSH rule authorized. -/
theorem create_security_group_creates (acct : Account)
    (hg : groupsNamed acct sgGroupName = []) :
    create_security_group noFaults acct =
      ({ groups := (acct.groups ++ [newGroupRow acct]).map
            (addRule (freshGroupId acct) [sshPermission]),
         nextId := acct.nextId + 1 }, some (freshGroupId acct)) := by
  unfold create_security_group describe_security_groups create_security_group_api
    authorize_security_group_ingress
  simp [noFaults, hg, notFoundGroup_msg, newGroupRow, addRule]

/-- Adding a rule never changes the name of a group. -/
theorem addRule_groupName (gid : String) (perms : List IpPermission) (g : SGroup) :
    (addRule gid perms g).groupName = g.groupName := by
  unfold addRule
  by_cases hid : (g.groupId == gid) = true <;> simp [hid]

/-- Adding a rule never changes the identifier of a group. -/
theorem addRule_groupId (gid : String) (perms : List IpPermission) (g : SGroup) :
    (addRule gid perms g).groupId = g.groupId := by
  unfold addRule
  by_cases hid : (g.groupId == gid) = true <;> simp [hid]

/-- Filtering by name commutes with adding a rule. -/
theorem filter_name_map_addRule (l : List SGroup) (name gid : String)
    (perms : List IpPermission) :
    (l.map (addRule gid perms)).filter (fun g => g.groupName == name) =
      (l.filter (fun g => g.groupName == name)).map (addRule gid perms) := by
  rw [List.filter_map]
  congr 1
  apply List.filter_congr
  intro g _
  simp [Function.comp, addRule_groupName]

/-- Adding a rule keyed on an identifier no group carries changes nothing. -/
theorem map_addRule_id (l : List SGroup) (gid : String) (perms : List IpPermission)
    (h : ∀ g ∈ l, (g.groupId == gid) = false) :
    l.map (addRule gid perms) = l := by
  induction l with
  | nil => rfl
  | cons a l ih =>
    have ha : a.groupId ≠ gid := by simpa using h a (List.mem_cons_self a l)
    have ih' := ih (fun g hg => h g (List.mem_cons_of_mem a hg))
    simp [List.map_cons, addRule, ha, ih']

/-- C1: group provisioning is idempotent.  When a group of the fixed name
already exists, `create_security_group` returns the identifier (of the
first match) and leaves the account untouched — no rule added, no second
group created; and after any successful call, calling again returns the
same identifier and changes nothing. -/
theorem create_security_group_idempotent :
    (∀ acct : Account, groupsNamed acct sgGroupName ≠ [] →
      create_security_group noFaults acct =
        (acct, some ((groupsNamed acct sgGroupName).head!).groupId)) ∧
    (∀ acct acct1 : Account, ∀ gid : String,
      create_security_group noFaults acct = (acct1, some gid) →
      create_security_group noFaults acct1 = (acct1, some gid)) := by
  constructor
  · intro acct h
    cases hg : groupsNamed acct sgGroupName with
    | nil => exact absurd hg h
    | cons g gs =>
      rw [create_security_group_reuses acct g gs hg]
      rfl
  · intro acct acct1 gid h
    cases hg : groupsNamed acct sgGroupName with
    | cons g gs =>
      rw [create_security_group_reuses acct g gs hg, Prod.mk.injEq] at h
      obtain ⟨hacct, hgid⟩ := h
      obtain rfl : gid = g.groupId := (Option.some.inj hgid).symm
      subst hacct
      exact create_security_group_reuses acct g gs hg
    | nil =>
      rw [create_security_group_creates acct hg, Prod.mk.injEq] at h
      obtain ⟨hacct, hgid⟩ := h
      obtain rfl : gid = freshGroupId acct := (Option.some.inj hgid).symm
      subst hacct
      have hg' : acct.groups.filter (fun g => g.groupName == sgGroupName) = [] := hg
      have hnamed : groupsNamed
          ({ groups := (acct.groups ++ [newGroupRow acct]).map
                (addRule (freshGroupId acct) [sshPermission]),
             nextId := acct.nextId + 1 } : Account) sgGroupName =
          [addRule (freshGroupId acct) [sshPermission] (newGroupRow acct)] := by
        simp [groupsNamed, filter_name_map_addRule, List.filter_append, hg',
              newGroupRow, addRule_groupName]
      rw [create_security_group_reuses _ _ _ hnamed]
      simp [addRule_groupId, newGroupRow]

/-- An account already holding the fixed-name group. -/
def acctC1 : Account := ⟨[⟨sgGroupName, "sg-41", sgDescription, [sshPermission]⟩], 42⟩

theorem create_security_group_idempotent_witness :
    create_security_group noFaults acctC1 = (acctC1, some "sg-41") ∧
    create_security_group noFaults (create_security_group noFaults ⟨[], 0⟩).1 =
      ((create_security_group noFaults ⟨[], 0⟩).1, some "sg-0") :=
  ⟨create_security_group_idempotent.1 acctC1 (by decide),
   create_security_group_idempotent.2 ⟨[], 0⟩ (create_security_group noFaults ⟨[], 0⟩).1
     "sg-0" (by decide)⟩

/-- C4: when the lookup reports "not found" and the creation succeeds, the
group is created with the fixed description and exactly one ingress rule —
TCP, FromPort 22, ToPort 22, source range 0.0.0.0/0 — and the new
identifier is returned. -/
theorem create_security_group_not_found_creates (acct : Account)
    (hg : groupsNamed acct sgGroupName = [])
    (hfresh : ∀ g ∈ acct.groups, (g.groupId == freshGroupId acct) = false) :
    create_security_group noFaults acct =
      ({ groups := acct.groups ++
          [{ groupName := sgGroupName, groupId := freshGroupId acct,
             description := sgDescription, ingressRules := [sshPermission] }],
         nextId := acct.nextId + 1 }, some (freshGroupId acct)) := by
  rw [create_security_group_creates acct hg]
  have h1 := map_addRule_id acct.groups (freshGroupId acct) [sshPermission] hfresh
  simp [List.map_append, h1, addRule, newGroupRow]

theorem create_security_group_not_found_creates_witness :
    create_security_group noFaults ⟨[], 0⟩ =
      ({ groups := [{ groupName := sgGroupName, groupId := "sg-0",
                      description := sgDescription, ingressRules := [sshPermission] }],
         nextId := 1 }, some "sg-0") :=
  create_security_group_not_found_creates ⟨[], 0⟩ rfl
    (by intro g hg; exact absurd hg (List.not_mem_nil g))
